import Mathlib

/-!
Verification development for the Learning-Platform backend course controller
(src/src/controllers/CourseController.ts, handlers and route table).

The TypeScript handlers are shallowly embedded as pure Lean functions over an
explicit relational store `DB`.  Each handler takes the store, the request
fields and the caller identity, and returns the HTTP status together with the
(possibly updated) store and, for reads, the response body.  The helpers
`appAssert`/`catchErrors` of the source throw and catch an HTTP error; that
control flow is embedded as early returns of the corresponding status code.
Identifiers are strings, matching the string ids used by the route parameters
and the ORM.
-/

/-! ## HTTP status constants (src/src/constants/http, as listed in the spec) -/

def OK : Nat := 200
def CREATED : Nat := 201
def BAD_REQUEST : Nat := 400
def UNAUTHORIZED : Nat := 401
def NOT_FOUND : Nat := 404
/-- Fallback status of the generic error wrapper for a failure no handler
branch produces (a broken required relation, impossible under the schema). -/
def INTERNAL_SERVER_ERROR : Nat := 500

/-! ## Data model (relational entities behind the ORM) -/

structure User where
  userId : String
  firstName : String
  lastName : String
deriving DecidableEq, Repr

structure Teacher where
  teacherId : String
  userId : String
deriving DecidableEq, Repr

structure Subject where
  subjectId : String
  name : String
deriving DecidableEq, Repr

structure Course where
  courseId : String
  title : String
  description : Option String
  isPublic : Bool
  teacherId : String
  subjectId : Option String
  image : String
deriving DecidableEq, Repr

structure Topic where
  topicId : String
  title : String
  courseId : String
deriving DecidableEq, Repr

structure Content where
  contentId : String
  type : String
  data : String
  topicId : String
deriving DecidableEq, Repr

/-- Modelled from the spec: enrollments are an opaque related collection of a
course (the schema file is not part of the reviewed source). -/
structure Enrollment where
  enrollmentId : String
  courseId : String
deriving DecidableEq, Repr

/-- Modelled from the spec: quizzes are an opaque related collection of a
course (the schema file is not part of the reviewed source). -/
structure Quiz where
  quizId : String
  courseId : String
deriving DecidableEq, Repr

/-- Modelled from the spec: exams are an opaque related collection of a
course (the schema file is not part of the reviewed source). -/
structure Exam where
  examId : String
  courseId : String
deriving DecidableEq, Repr

/-- The relational store seen through the ORM client. -/
structure DB where
  users : List User
  teachers : List Teacher
  subjects : List Subject
  courses : List Course
  topics : List Topic
  contents : List Content
  enrollments : List Enrollment
  quizzes : List Quiz
  exams : List Exam
deriving DecidableEq, Repr

/-! ## findUnique equivalents -/

def DB.findCourse (db : DB) (courseId : String) : Option Course :=
  db.courses.find? (fun c => c.courseId == courseId)

def DB.findTeacher (db : DB) (teacherId : String) : Option Teacher :=
  db.teachers.find? (fun t => t.teacherId == teacherId)

def DB.findTeacherByUserId (db : DB) (userId : String) : Option Teacher :=
  db.teachers.find? (fun t => t.userId == userId)

def DB.findUser (db : DB) (userId : String) : Option User :=
  db.users.find? (fun u => u.userId == userId)

def DB.findSubject (db : DB) (subjectId : String) : Option Subject :=
  db.subjects.find? (fun s => s.subjectId == subjectId)

def DB.findTopic (db : DB) (topicId : String) : Option Topic :=
  db.topics.find? (fun t => t.topicId == topicId)

def DB.findContent (db : DB) (contentId : String) : Option Content :=
  db.contents.find? (fun c => c.contentId == contentId)

/-! ## Projections produced by the include clauses -/

/-- Select clause `user: { select: { firstName, lastName } }`. -/
structure UserName where
  firstName : String
  lastName : String
deriving DecidableEq, Repr

/-- Include clause `teacher: { include: { user: { select: ... } } }`. -/
structure TeacherJoin where
  teacherId : String
  userId : String
  user : Option UserName
deriving DecidableEq, Repr

def DB.teacherJoin (db : DB) (teacherId : String) : Option TeacherJoin :=
  (db.findTeacher teacherId).map fun t =>
    { teacherId := t.teacherId
      userId := t.userId
      user := (db.findUser t.userId).map fun u =>
        { firstName := u.firstName, lastName := u.lastName } }

/-- A topic as returned inside a course projection.  The ORM attaches the
related contents only when the nested include asks for them
(`contents: true`); with `contents: false` the relation stays absent,
embedded here as `none`. -/
structure TopicProj where
  topic : Topic
  contents : Option (List Content)
deriving DecidableEq, Repr

def DB.topicsOfCourse (db : DB) (courseId : String) (withContents : Bool) :
    List TopicProj :=
  (db.topics.filter (fun t => t.courseId == courseId)).map fun t =>
    { topic := t
      contents :=
        if withContents then
          some (db.contents.filter (fun k => k.topicId == t.topicId))
        else none }

/-- Row shape of `getAllCoursesHandler`: course with teacher names joined. -/
structure CourseListProj where
  course : Course
  teacher : Option TeacherJoin
deriving DecidableEq, Repr

/-- Row shape of `getPublicCoursesHandler`: course with teacher names,
subject, and topics with their contents joined. -/
structure PublicCourseProj where
  course : Course
  teacher : Option TeacherJoin
  subject : Option Subject
  topics : List TopicProj
deriving DecidableEq, Repr

/-- Body shape of `getCourseByIdHandler`: the include clause asks for topics
with `contents: false`, teacher names, enrollments, subject, quizzes and
exams. -/
structure CourseDetail where
  course : Course
  topics : List TopicProj
  teacher : Option TeacherJoin
  enrollments : List Enrollment
  subject : Option Subject
  quizzes : List Quiz
  exams : List Exam
deriving DecidableEq, Repr

/-! ## Request values -/

/-- A JavaScript request-body value for the `isPublic` field: absent,
a string, or a native boolean. -/
inductive JSValue where
  | undef : JSValue
  | str : String → JSValue
  | bool : Bool → JSValue
deriving DecidableEq, Repr

/-- Line 48 and line 233 of the controller:
`const isPublicBoolean = isPublic === "true" || isPublic === true;`
with the strict-equality semantics of `===`. -/
def isPublicBoolean (isPublic : JSValue) : Bool :=
  (match isPublic with
   | JSValue.str s => s == "true"
   | _ => false) ||
  (match isPublic with
   | JSValue.bool b => b
   | _ => false)

/-- JavaScript truthiness of an optional string field
(absent, and the empty string, are falsy). -/
def truthyStr : Option String → Bool
  | some s => s != ""
  | none => false

/-! ## Store mutations issued by the handlers -/

def DB.insertCourse (db : DB) (c : Course) : DB :=
  { db with courses := db.courses ++ [c] }

def DB.replaceCourse (db : DB) (c : Course) : DB :=
  { db with courses := db.courses.map fun x =>
      if x.courseId == c.courseId then c else x }

def DB.removeCourse (db : DB) (courseId : String) : DB :=
  { db with courses := db.courses.filter fun c => c.courseId != courseId }

def DB.insertContent (db : DB) (k : Content) : DB :=
  { db with contents := db.contents ++ [k] }

def DB.replaceContent (db : DB) (k : Content) : DB :=
  { db with contents := db.contents.map fun x =>
      if x.contentId == k.contentId then k else x }

def DB.removeContent (db : DB) (contentId : String) : DB :=
  { db with contents := db.contents.filter fun c => c.contentId != contentId }

def DB.replaceTopic (db : DB) (t : Topic) : DB :=
  { db with topics := db.topics.map fun x =>
      if x.topicId == t.topicId then t else x }

def DB.removeTopic (db : DB) (topicId : String) : DB :=
  { db with topics := db.topics.filter fun t => t.topicId != topicId }

/-! ## Handlers -/

/-- Request body and upload of `POST /courses/create` and
`PUT /courses/:courseId`.  `file` is the staged upload; its stored value
stands for the Base64 text the handler derives from the file bytes. -/
structure CourseReqBody where
  title : Option String
  description : Option String
  isPublic : JSValue
  subjectId : Option String
  file : Option String
deriving DecidableEq, Repr

/-- createCourseHandler (lines 17 to 67).  `newCourseId` stands for the
identifier the store generates for the inserted row. -/
def createCourseHandler (db : DB) (req : CourseReqBody) (userId : String)
    (newCourseId : String) : Nat × DB :=
  -- appAssert(title, BAD_REQUEST, "Missing required fields")
  if truthyStr req.title = false then (BAD_REQUEST, db)
  else
    -- prisma.teacher.findUnique({ where: { userId: teacherId } })
    match db.findTeacherByUserId userId with
    | none => (NOT_FOUND, db)
    | some teacher =>
      -- const image = req.file; if (!image) return 400
      match req.file with
      | none => (BAD_REQUEST, db)
      | some imageBase64 =>
        -- prisma.course.create, try/catch: a constraint violation
        -- (dangling subject reference) is caught and reported as 400
        if (match req.subjectId with
            | some sid => (db.findSubject sid).isNone
            | none => false) then
          (BAD_REQUEST, db)
        else
          let course : Course :=
            { courseId := newCourseId
              title := req.title.getD ""
              description := req.description
              isPublic := isPublicBoolean req.isPublic
              teacherId := teacher.teacherId
              subjectId := req.subjectId
              image := imageBase64 }
          (CREATED, db.insertCourse course)

/-- getAllCoursesHandler (lines 70 to 87): every course, teacher names
joined in. -/
def getAllCoursesHandler (db : DB) : Nat × List CourseListProj :=
  (OK, db.courses.map fun c =>
    { course := c, teacher := db.teacherJoin c.teacherId })

/-- getPublicCoursesHandler (lines 90 to 116): `where: { isPublic: true }`,
with teacher names, subject and topics (with contents) joined in. -/
def getPublicCoursesHandler (db : DB) : Nat × List PublicCourseProj :=
  (OK, (db.courses.filter (fun c => c.isPublic)).map fun c =>
    { course := c
      teacher := db.teacherJoin c.teacherId
      subject := c.subjectId.bind db.findSubject
      topics := db.topicsOfCourse c.courseId true })

/-- Resolve the owning teacher of a course, as the include clause
`include: { teacher: true }` materialises it.  The relation is required by
the schema, so the `none` case cannot arise on real data. -/
def DB.courseOwner (db : DB) (c : Course) : Option Teacher :=
  db.findTeacher c.teacherId

/-- addContentToTopicHandler (lines 150 to 183). -/
def addContentToTopicHandler (db : DB) (topicId : Option String)
    (type : Option String) (data : Option String) (userId : String)
    (newContentId : String) : Nat × DB :=
  -- appAssert(topicId && type && data, BAD_REQUEST, ...)
  if (truthyStr topicId && truthyStr type && truthyStr data) = false then
    (BAD_REQUEST, db)
  else
    match db.findTopic (topicId.getD "") with
    | none => (NOT_FOUND, db)
    | some topic =>
      match db.findCourse topic.courseId with
      | none => (INTERNAL_SERVER_ERROR, db)
      | some course =>
        match db.courseOwner course with
        | none => (INTERNAL_SERVER_ERROR, db)
        | some teacher =>
          if teacher.userId != userId then (UNAUTHORIZED, db)
          else
            -- const validTypes = ["TEXT", "LINK", "YOUTUBE_VIDEO"]
            if (["TEXT", "LINK", "YOUTUBE_VIDEO"].contains
                  (type.getD "")) = false then
              (BAD_REQUEST, db)
            else
              (CREATED, db.insertContent
                { contentId := newContentId
                  type := type.getD ""
                  data := data.getD ""
                  topicId := topicId.getD "" })

/-- deleteCourseHandler (lines 186 to 208). -/
def deleteCourseHandler (db : DB) (courseId : String) (userId : String) :
    Nat × DB :=
  match db.findCourse courseId with
  | none => (NOT_FOUND, db)
  | some course =>
    match db.courseOwner course with
    | none => (INTERNAL_SERVER_ERROR, db)
    | some teacher =>
      if teacher.userId != userId then (UNAUTHORIZED, db)
      else (OK, db.removeCourse courseId)

/-- updateCourseHandler (lines 212 to 258).  A body field left undefined is
skipped by the ORM update call, except `isPublic`, which is always written
with the parsed boolean, and `image`, which defaults to the stored image. -/
def updateCourseHandler (db : DB) (courseId : String) (userId : String)
    (req : CourseReqBody) : Nat × DB :=
  match db.findCourse courseId with
  | none => (NOT_FOUND, db)
  | some course =>
    match db.courseOwner course with
    | none => (INTERNAL_SERVER_ERROR, db)
    | some teacher =>
      if teacher.userId != userId then (UNAUTHORIZED, db)
      else
        let isPublicParsed := isPublicBoolean req.isPublic
        let imageBase64 :=
          match req.file with
          | some f => f
          | none => course.image
        let updated : Course :=
          { course with
              title := req.title.getD course.title
              description :=
                match req.description with
                | some d => some d
                | none => course.description
              isPublic := isPublicParsed
              subjectId :=
                match req.subjectId with
                | some s => some s
                | none => course.subjectId
              image := imageBase64 }
        (OK, db.replaceCourse updated)

/-- updateTopicHandler (lines 260 to 286). -/
def updateTopicHandler (db : DB) (topicId : String) (userId : String)
    (title : Option String) : Nat × DB :=
  match db.findTopic topicId with
  | none => (NOT_FOUND, db)
  | some topic =>
    match db.findCourse topic.courseId with
    | none => (INTERNAL_SERVER_ERROR, db)
    | some course =>
      match db.courseOwner course with
      | none => (INTERNAL_SERVER_ERROR, db)
      | some teacher =>
        if teacher.userId != userId then (UNAUTHORIZED, db)
        else
          (OK, db.replaceTopic { topic with title := title.getD topic.title })

/-- updateContentHandler (lines 289 to 316).  No content-type check appears
in this handler. -/
def updateContentHandler (db : DB) (contentId : String) (userId : String)
    (type : Option String) (data : Option String) : Nat × DB :=
  match db.findContent contentId with
  | none => (NOT_FOUND, db)
  | some content =>
    match db.findTopic content.topicId with
    | none => (INTERNAL_SERVER_ERROR, db)
    | some topic =>
      match db.findCourse topic.courseId with
      | none => (INTERNAL_SERVER_ERROR, db)
      | some course =>
        match db.courseOwner course with
        | none => (INTERNAL_SERVER_ERROR, db)
        | some teacher =>
          if teacher.userId != userId then (UNAUTHORIZED, db)
          else
            (OK, db.replaceContent
              { content with
                  type := type.getD content.type
                  data := data.getD content.data })

/-- deleteContentHandler (lines 319 to 341). -/
def deleteContentHandler (db : DB) (contentId : String) (userId : String) :
    Nat × DB :=
  match db.findContent contentId with
  | none => (NOT_FOUND, db)
  | some content =>
    match db.findTopic content.topicId with
    | none => (INTERNAL_SERVER_ERROR, db)
    | some topic =>
      match db.findCourse topic.courseId with
      | none => (INTERNAL_SERVER_ERROR, db)
      | some course =>
        match db.courseOwner course with
        | none => (INTERNAL_SERVER_ERROR, db)
        | some teacher =>
          if teacher.userId != userId then (UNAUTHORIZED, db)
          else (OK, db.removeContent contentId)

/-- getCourseByIdHandler (lines 344 to 375): topics are included with
`contents: false`, so the nested contents relation stays absent. -/
def getCourseByIdHandler (db : DB) (courseId : String) :
    Nat × Option CourseDetail :=
  match db.findCourse courseId with
  | none => (NOT_FOUND, none)
  | some course =>
    (OK, some
      { course := course
        topics := db.topicsOfCourse courseId false
        teacher := db.teacherJoin course.teacherId
        enrollments := db.enrollments.filter fun e => e.courseId == courseId
        subject := course.subjectId.bind db.findSubject
        quizzes := db.quizzes.filter fun q => q.courseId == courseId
        exams := db.exams.filter fun e => e.courseId == courseId })

/-- deleteTopicHandler (lines 378 to 400). -/
def deleteTopicHandler (db : DB) (topicId : String) (userId : String) :
    Nat × DB :=
  match db.findTopic topicId with
  | none => (NOT_FOUND, db)
  | some topic =>
    match db.findCourse topic.courseId with
    | none => (INTERNAL_SERVER_ERROR, db)
    | some course =>
      match db.courseOwner course with
      | none => (INTERNAL_SERVER_ERROR, db)
      | some teacher =>
        if teacher.userId != userId then (UNAUTHORIZED, db)
        else (OK, db.removeTopic topicId)

/-! ## Route pipeline for GET /courses/all -/

/-- An authenticated caller as the middleware stack would expose it. -/
structure Caller where
  userId : String
  isTeacherRole : Bool
deriving DecidableEq, Repr

/-- Modelled from the spec: the authenticate middleware
(src/src/middleware/authenticate.ts is not part of the reviewed source)
populates a caller identity on the request before the handler runs and
rejects a request that carries none. -/
def authenticate (caller : Option Caller) : Except Nat Caller :=
  match caller with
  | some c => Except.ok c
  | none => Except.error UNAUTHORIZED

/-- Modelled from the spec: the isTeacher middleware
(src/src/middleware/isTeacher.ts is not part of the reviewed source) gates
teacher-only routes, rejecting callers without the teacher role. -/
def isTeacher (c : Caller) : Except Nat Caller :=
  if c.isTeacherRole then Except.ok c else Except.error UNAUTHORIZED

/-- Route registration of CourseRoute.ts line 441:
`CourseRoutes.get("/all", getAllCoursesHandler)` — the handler is mounted
with no authenticate and no isTeacher middleware, so the handler runs
whatever the auth state of the request is. -/
def getAllRoute (db : DB) (_caller : Option Caller) :
    Nat × Option (List CourseListProj) :=
  let r := getAllCoursesHandler db
  (r.1, some r.2)

/-- Written from the spec words, for comparison: a teacher-authenticated
list endpoint would run authenticate, then isTeacher, then the handler. -/
def specGetAllRoute (db : DB) (caller : Option Caller) :
    Nat × Option (List CourseListProj) :=
  match authenticate caller with
  | Except.error s => (s, none)
  | Except.ok c =>
    match isTeacher c with
    | Except.error s => (s, none)
    | Except.ok _ =>
      let r := getAllCoursesHandler db
      (r.1, some r.2)

/-! ## Helper lemmas -/

/-- Replacing, in a list, every element matched by `p` with a `p`-satisfying
element `k` makes `find? p` return `k`, provided some element matched. -/
theorem find?_map_if {α : Type} (p : α → Bool) (k : α) (hk : p k = true) :
    ∀ l : List α, (l.find? p).isSome = true →
      (l.map fun x => if p x then k else x).find? p = some k := by
  intro l
  induction l with
  | nil => intro h; simp [List.find?] at h
  | cons x xs ih =>
    intro h
    by_cases hx : p x = true
    · simp [hx, List.find?_cons_of_pos, hk]
    · have hx2 : p x = false := by
        cases hpx : p x
        · rfl
        · exact absurd hpx hx
      rw [List.find?_cons_of_neg _ hx] at h
      simp only [List.map_cons, hx2, Bool.false_eq_true, if_false]
      rw [List.find?_cons_of_neg _ hx]
      exact ih h

theorem findCourse_replaceCourse (db : DB) (c : Course)
    (h : (db.findCourse c.courseId).isSome = true) :
    (db.replaceCourse c).findCourse c.courseId = some c := by
  unfold DB.findCourse DB.replaceCourse at *
  exact find?_map_if _ c (by simp) db.courses h

theorem findContent_replaceContent (db : DB) (k : Content)
    (h : (db.findContent k.contentId).isSome = true) :
    (db.replaceContent k).findContent k.contentId = some k := by
  unfold DB.findContent DB.replaceContent at *
  exact find?_map_if _ k (by simp) db.contents h

/-! ## Concrete data for the claim on GET /courses/all -/

def userA : User := { userId := "u1", firstName := "Alice", lastName := "Smith" }

def teacherA : Teacher := { teacherId := "t1", userId := "u1" }

def courseA : Course :=
  { courseId := "c1", title := "Algebra I", description := none,
    isPublic := true, teacherId := "t1", subjectId := none, image := "img" }

def dbA : DB :=
  { users := [userA], teachers := [teacherA], subjects := [],
    courses := [courseA], topics := [], contents := [],
    enrollments := [], quizzes := [], exams := [] }

/-- Claim C1 (failing input): a request with no authenticated caller sent to
GET /courses/all.  The route mounts the handler with no authenticate and no
isTeacher middleware, so the full course list is returned with status 200,
while the spec (and the comment above the handler in the source) require a
teacher-authenticated caller; the spec-worded pipeline would answer 401 with
no list. -/
theorem getAllRoute_unauthenticated_returns_list :
    getAllRoute dbA none =
      (OK, some [{ course := courseA,
                   teacher := some { teacherId := "t1", userId := "u1",
                                     user := some { firstName := "Alice",
                                                    lastName := "Smith" } } }])
    ∧ specGetAllRoute dbA none = (UNAUTHORIZED, none) := by
  constructor <;> rfl

/-- Claim C9: the public-list operation never returns a record whose
visibility flag is false, whatever the stored mixture of public and private
courses. -/
theorem publicCourses_only_public (db : DB) :
    ((getPublicCoursesHandler db).2.all fun p => p.course.isPublic) = true := by
  unfold getPublicCoursesHandler
  simp only [List.all_eq_true]
  intro p hp
  obtain ⟨c, hcf, rfl⟩ := List.mem_map.mp hp
  have := (List.mem_filter.mp hcf).2
  simpa using this

/-- Claim C3: when the course exists and the caller owns it, an update whose
body omits the isPublic field persists isPublic = false, even when the stored
value before the update was true. -/
theorem updateCourse_omitted_isPublic_persists_false
    (db : DB) (courseId userId : String) (req : CourseReqBody)
    (c : Course) (t : Teacher)
    (hc : db.findCourse courseId = some c)
    (ht : db.courseOwner c = some t)
    (hu : t.userId = userId)
    (hp : req.isPublic = JSValue.undef) :
    (updateCourseHandler db courseId userId req).1 = OK ∧
    ∃ c2, (updateCourseHandler db courseId userId req).2.findCourse courseId
            = some c2 ∧ c2.isPublic = false := by
  have hc' : db.courses.find? (fun x => x.courseId == courseId) = some c := hc
  have hcid : c.courseId = courseId := by
    have hpc := List.find?_some hc'
    exact eq_of_beq (by simpa using hpc)
  have hsome : (db.findCourse c.courseId).isSome = true := by
    rw [hcid, hc]; rfl
  unfold updateCourseHandler
  rw [hc]
  simp only [ht, hu, bne_self_eq_false, Bool.false_eq_true, if_false, hp]
  refine ⟨by trivial, ?_⟩
  rw [← hcid]
  exact ⟨_, findCourse_replaceCourse db _ hsome, rfl⟩

def teacherC3 : Teacher := { teacherId := "t31", userId := "u31" }

def courseC3 : Course :=
  { courseId := "c31", title := "Algebra", description := none,
    isPublic := true, teacherId := "t31", subjectId := none, image := "i" }

def dbC3 : DB :=
  { users := [], teachers := [teacherC3], subjects := [],
    courses := [courseC3], topics := [], contents := [],
    enrollments := [], quizzes := [], exams := [] }

def reqC3 : CourseReqBody :=
  { title := some "Algebra II", description := none,
    isPublic := JSValue.undef, subjectId := none, file := none }

/-- Claim C3 witness: a stored public course updated with a body that omits
isPublic comes back private. -/
theorem updateCourse_omitted_isPublic_witness :
    (updateCourseHandler dbC3 "c31" "u31" reqC3).1 = OK ∧
    ∃ c2, (updateCourseHandler dbC3 "c31" "u31" reqC3).2.findCourse "c31"
            = some c2 ∧ c2.isPublic = false :=
  updateCourse_omitted_isPublic_persists_false dbC3 "c31" "u31" reqC3
    courseC3 teacherC3 rfl rfl rfl rfl

/-- Claim C4: an update or delete request that targets an existing course,
topic or content whose owning teacher has a userId different from the caller
identity answers 401 and leaves the store untouched. -/
theorem owner_mismatch_401_unchanged (db : DB) (userId : String) :
    (∀ courseId c t, db.findCourse courseId = some c →
        db.courseOwner c = some t → t.userId ≠ userId →
        deleteCourseHandler db courseId userId = (UNAUTHORIZED, db) ∧
        ∀ req, updateCourseHandler db courseId userId req
                 = (UNAUTHORIZED, db)) ∧
    (∀ topicId tp c t, db.findTopic topicId = some tp →
        db.findCourse tp.courseId = some c → db.courseOwner c = some t →
        t.userId ≠ userId →
        deleteTopicHandler db topicId userId = (UNAUTHORIZED, db) ∧
        ∀ title, updateTopicHandler db topicId userId title
                   = (UNAUTHORIZED, db)) ∧
    (∀ contentId k tp c t, db.findContent contentId = some k →
        db.findTopic k.topicId = some tp →
        db.findCourse tp.courseId = some c → db.courseOwner c = some t →
        t.userId ≠ userId →
        deleteContentHandler db contentId userId = (UNAUTHORIZED, db) ∧
        ∀ ty da, updateContentHandler db contentId userId ty da
                   = (UNAUTHORIZED, db)) := by
  refine ⟨?_, ?_, ?_⟩
  · intro courseId c t hc ht hne
    have hb : (t.userId != userId) = true := bne_iff_ne.mpr hne
    constructor
    · unfold deleteCourseHandler
      rw [hc]
      simp [ht, hb]
    · intro req
      unfold updateCourseHandler
      rw [hc]
      simp [ht, hb]
  · intro topicId tp c t htp hc ht hne
    have hb : (t.userId != userId) = true := bne_iff_ne.mpr hne
    constructor
    · unfold deleteTopicHandler
      rw [htp]
      simp [hc, ht, hb]
    · intro title
      unfold updateTopicHandler
      rw [htp]
      simp [hc, ht, hb]
  · intro contentId k tp c t hk htp hc ht hne
    have hb : (t.userId != userId) = true := bne_iff_ne.mpr hne
    constructor
    · unfold deleteContentHandler
      rw [hk]
      simp [htp, hc, ht, hb]
    · intro ty da
      unfold updateContentHandler
      rw [hk]
      simp [htp, hc, ht, hb]

def teacherC4 : Teacher := { teacherId := "t41", userId := "u41" }

def courseC4 : Course :=
  { courseId := "c41", title := "Geometry", description := none,
    isPublic := false, teacherId := "t41", subjectId := none, image := "i" }

def topicC4 : Topic :=
  { topicId := "tp41", title := "Chapter 1", courseId := "c41" }

def contentC4 : Content :=
  { contentId := "k41", type := "LINK", data := "http://x",
    topicId := "tp41" }

def dbC4 : DB :=
  { users := [], teachers := [teacherC4], subjects := [],
    courses := [courseC4], topics := [topicC4], contents := [contentC4],
    enrollments := [], quizzes := [], exams := [] }

def reqC4 : CourseReqBody :=
  { title := some "Geometry II", description := none,
    isPublic := JSValue.bool true, subjectId := none, file := none }

/-- Claim C4 witness: a caller with identity u42 targeting entities owned by
the teacher with identity u41 is denied on all six update and delete
operations and the store is unchanged. -/
theorem owner_mismatch_401_witness :
    deleteCourseHandler dbC4 "c41" "u42" = (UNAUTHORIZED, dbC4) ∧
    updateCourseHandler dbC4 "c41" "u42" reqC4 = (UNAUTHORIZED, dbC4) ∧
    deleteTopicHandler dbC4 "tp41" "u42" = (UNAUTHORIZED, dbC4) ∧
    updateTopicHandler dbC4 "tp41" "u42" (some "X") = (UNAUTHORIZED, dbC4) ∧
    deleteContentHandler dbC4 "k41" "u42" = (UNAUTHORIZED, dbC4) ∧
    updateContentHandler dbC4 "k41" "u42" (some "TEXT") (some "d")
      = (UNAUTHORIZED, dbC4) := by
  have h := owner_mismatch_401_unchanged dbC4 "u42"
  have h1 := h.1 "c41" courseC4 teacherC4 rfl rfl (by decide)
  have h2 := h.2.1 "tp41" topicC4 courseC4 teacherC4 rfl rfl rfl (by decide)
  have h3 := h.2.2 "k41" contentC4 topicC4 courseC4 teacherC4 rfl rfl rfl rfl
    (by decide)
  exact ⟨h1.1, h1.2 reqC4, h2.1, h2.2 (some "X"), h3.1,
    h3.2 (some "TEXT") (some "d")⟩

/-- Claim C5: an update or delete request whose target id does not exist
answers 404 with the store unchanged, and, the existence check coming before
the ownership comparison, the result is the same whatever the caller
identity. -/
theorem missing_target_404 (db : DB) (id userId : String) :
    (db.findCourse id = none →
        deleteCourseHandler db id userId = (NOT_FOUND, db) ∧
        ∀ req, updateCourseHandler db id userId req = (NOT_FOUND, db)) ∧
    (db.findTopic id = none →
        deleteTopicHandler db id userId = (NOT_FOUND, db) ∧
        ∀ title, updateTopicHandler db id userId title = (NOT_FOUND, db)) ∧
    (db.findContent id = none →
        deleteContentHandler db id userId = (NOT_FOUND, db) ∧
        ∀ ty da, updateContentHandler db id userId ty da
                   = (NOT_FOUND, db)) := by
  refine ⟨?_, ?_, ?_⟩
  · intro hc
    refine ⟨?_, fun req => ?_⟩
    · unfold deleteCourseHandler; rw [hc]
    · unfold updateCourseHandler; rw [hc]
  · intro htp
    refine ⟨?_, fun title => ?_⟩
    · unfold deleteTopicHandler; rw [htp]
    · unfold updateTopicHandler; rw [htp]
  · intro hk
    refine ⟨?_, fun ty da => ?_⟩
    · unfold deleteContentHandler; rw [hk]
    · unfold updateContentHandler; rw [hk]

def dbC5 : DB :=
  { users := [], teachers := [], subjects := [], courses := [],
    topics := [], contents := [], enrollments := [], quizzes := [],
    exams := [] }

/-- Claim C5 witness: against an empty store, every update and delete
operation answers 404 for an arbitrary caller. -/
theorem missing_target_404_witness :
    deleteCourseHandler dbC5 "nope" "u1" = (NOT_FOUND, dbC5) ∧
    updateCourseHandler dbC5 "nope" "u1" reqC4 = (NOT_FOUND, dbC5) ∧
    deleteTopicHandler dbC5 "nope" "u1" = (NOT_FOUND, dbC5) ∧
    updateTopicHandler dbC5 "nope" "u1" (some "X") = (NOT_FOUND, dbC5) ∧
    deleteContentHandler dbC5 "nope" "u1" = (NOT_FOUND, dbC5) ∧
    updateContentHandler dbC5 "nope" "u1" (some "TEXT") none
      = (NOT_FOUND, dbC5) := by
  have h := missing_target_404 dbC5 "nope" "u1"
  have h1 := h.1 rfl
  have h2 := h.2.1 rfl
  have h3 := h.2.2 rfl
  exact ⟨h1.1, h1.2 reqC4, h2.1, h2.2 (some "X"), h3.1,
    h3.2 (some "TEXT") none⟩

def dbC6 : DB :=
  { users := [], teachers := [], subjects := [], courses := [],
    topics := [], contents := [], enrollments := [], quizzes := [],
    exams := [] }

def reqC6 : CourseReqBody :=
  { title := some "Algebra", description := none,
    isPublic := JSValue.undef, subjectId := none, file := none }

/-- Claim C6 counterexample: a creation request with a title but no image,
sent by a caller with no teacher profile, answers 404 (teacher not found),
not the 400 the claim requires, because the teacher check runs before the
image check. -/
theorem createCourse_missing_image_not_always_400 :
    (createCourseHandler dbC6 reqC6 "u9" "c9").1 = NOT_FOUND ∧
    ¬ (createCourseHandler dbC6 reqC6 "u9" "c9").1 = BAD_REQUEST := by
  constructor <;> decide

/-- Claim C6 (amended): a creation request with a missing or empty title is
rejected with 400; a creation request lacking the image file is rejected
with 400 when the caller has a teacher profile and with 404 otherwise; in
every such case no course record is persisted. -/
theorem createCourse_missing_fields_rejected (db : DB) (req : CourseReqBody)
    (userId newId : String)
    (h : truthyStr req.title = false ∨ req.file = none) :
    (createCourseHandler db req userId newId).2 = db ∧
    (truthyStr req.title = false →
      (createCourseHandler db req userId newId).1 = BAD_REQUEST) ∧
    (req.file = none → (db.findTeacherByUserId userId).isSome = true →
      (createCourseHandler db req userId newId).1 = BAD_REQUEST) ∧
    ((createCourseHandler db req userId newId).1 = BAD_REQUEST ∨
     (createCourseHandler db req userId newId).1 = NOT_FOUND) := by
  unfold createCourseHandler
  cases hT : truthyStr req.title with
  | false => simp [hT]
  | true =>
    have hf : req.file = none := by
      rcases h with h1 | h1
      · rw [hT] at h1; cases h1
      · exact h1
    cases hTeach : db.findTeacherByUserId userId with
    | none => simp [hT, hf, hTeach]
    | some t => simp [hT, hf, hTeach]

def teacherC6 : Teacher := { teacherId := "t61", userId := "u61" }

def dbC6b : DB :=
  { users := [], teachers := [teacherC6], subjects := [], courses := [],
    topics := [], contents := [], enrollments := [], quizzes := [],
    exams := [] }

/-- Claim C6 witness: with the teacher profile present, a creation request
lacking the image answers 400 and the store is unchanged. -/
theorem createCourse_missing_fields_witness :
    (createCourseHandler dbC6b reqC6 "u61" "c61").2 = dbC6b ∧
    (createCourseHandler dbC6b reqC6 "u61" "c61").1 = BAD_REQUEST := by
  have h := createCourse_missing_fields_rejected dbC6b reqC6 "u61" "c61"
    (Or.inr rfl)
  exact ⟨h.1, h.2.2.1 rfl (by decide)⟩

/-- Claim C7: the visibility parsing maps the string "true" and the native
boolean true to true and every other value to false, and both the create and
the update handler persist exactly the parsed value. -/
theorem isPublic_normalization (db : DB) (req : CourseReqBody)
    (userId newId courseId : String) :
    isPublicBoolean (JSValue.str "true") = true ∧
    isPublicBoolean (JSValue.bool true) = true ∧
    (∀ v : JSValue, v ≠ JSValue.str "true" → v ≠ JSValue.bool true →
      isPublicBoolean v = false) ∧
    (∀ t, db.findTeacherByUserId userId = some t →
      truthyStr req.title = true →
      (∀ sid, req.subjectId = some sid →
        (db.findSubject sid).isSome = true) →
      ∀ f, req.file = some f →
      ∃ c, (createCourseHandler db req userId newId).2.courses
             = db.courses ++ [c] ∧
           c.isPublic = isPublicBoolean req.isPublic) ∧
    (∀ c t, db.findCourse courseId = some c → db.courseOwner c = some t →
      t.userId = userId →
      ∃ c2, (updateCourseHandler db courseId userId req).2.findCourse courseId
              = some c2 ∧ c2.isPublic = isPublicBoolean req.isPublic) := by
  refine ⟨rfl, rfl, ?_, ?_, ?_⟩
  · intro v h1 h2
    cases v with
    | undef => rfl
    | str s =>
      have hs : s ≠ "true" := fun hh => h1 (by rw [hh])
      have hb : (s == "true") = false := beq_eq_false_iff_ne.mpr hs
      simp [isPublicBoolean, hb]
    | bool b =>
      have hb : b = false := by
        cases b
        · rfl
        · exact absurd rfl h2
      rw [hb]; rfl
  · intro t ht hT hsub f hf
    unfold createCourseHandler
    cases hs : req.subjectId with
    | none => simp only [hT, hf, ht, hs, Bool.true_eq_false, if_false]
              exact ⟨_, rfl, rfl⟩
    | some sid =>
      obtain ⟨s, hfs⟩ := Option.isSome_iff_exists.mp (hsub sid hs)
      simp only [hT, hf, ht, hs, hfs, Option.isNone_some,
        Bool.true_eq_false, Bool.false_eq_true, if_false]
      exact ⟨_, rfl, rfl⟩
  · intro c t hc ht hu
    have hc' : db.courses.find? (fun x => x.courseId == courseId) = some c :=
      hc
    have hcid : c.courseId = courseId := by
      have hpc := List.find?_some hc'
      exact eq_of_beq (by simpa using hpc)
    have hsome : (db.findCourse c.courseId).isSome = true := by
      rw [hcid, hc]; rfl
    unfold updateCourseHandler
    rw [hc]
    simp only [ht, hu, bne_self_eq_false, Bool.false_eq_true, if_false]
    rw [← hcid]
    exact ⟨_, findCourse_replaceCourse db _ hsome, rfl⟩

def teacherC7 : Teacher := { teacherId := "t71", userId := "u71" }

def courseC7 : Course :=
  { courseId := "c71", title := "Biology", description := none,
    isPublic := false, teacherId := "t71", subjectId := none, image := "i" }

def dbC7 : DB :=
  { users := [], teachers := [teacherC7], subjects := [],
    courses := [courseC7], topics := [], contents := [],
    enrollments := [], quizzes := [], exams := [] }

def reqC7 : CourseReqBody :=
  { title := some "Biology", description := none,
    isPublic := JSValue.str "true", subjectId := none, file := some "img" }

/-- Claim C7 witness: the string value "yes" parses to false, and both the
create and the update handler persist the parsed value of the textual
"true". -/
theorem isPublic_normalization_witness :
    isPublicBoolean (JSValue.str "yes") = false ∧
    (∃ c, (createCourseHandler dbC7 reqC7 "u71" "c72").2.courses
            = dbC7.courses ++ [c] ∧
          c.isPublic = isPublicBoolean reqC7.isPublic) ∧
    (∃ c2, (updateCourseHandler dbC7 "c71" "u71" reqC7).2.findCourse "c71"
            = some c2 ∧ c2.isPublic = isPublicBoolean reqC7.isPublic) := by
  have h := isPublic_normalization dbC7 reqC7 "u71" "c72" "c71"
  refine ⟨h.2.2.1 (JSValue.str "yes") (by decide) (by decide), ?_, ?_⟩
  · exact h.2.2.2.1 teacherC7 rfl rfl
      (by intro sid hs; simp [reqC7] at hs) "img" rfl
  · exact h.2.2.2.2 courseC7 teacherC7 rfl rfl rfl

/-- Claim C8: when the topic exists and the caller owns its course, an
add-content request whose type is outside the TEXT, LINK, YOUTUBE_VIDEO
enumeration answers 400 and creates no content record. -/
theorem addContent_invalid_type_400 (db : DB)
    (topicId ty da userId newId : String)
    (tp : Topic) (c : Course) (t : Teacher)
    (h1 : topicId ≠ "") (hty : ty ≠ "") (hda : da ≠ "")
    (htp : db.findTopic topicId = some tp)
    (hc : db.findCourse tp.courseId = some c)
    (ht : db.courseOwner c = some t)
    (hu : t.userId = userId)
    (hv : (["TEXT", "LINK", "YOUTUBE_VIDEO"].contains ty) = false) :
    addContentToTopicHandler db (some topicId) (some ty) (some da) userId
      newId = (BAD_REQUEST, db) := by
  have hb1 : (topicId != "") = true := bne_iff_ne.mpr h1
  have hb2 : (ty != "") = true := bne_iff_ne.mpr hty
  have hb3 : (da != "") = true := bne_iff_ne.mpr hda
  unfold addContentToTopicHandler
  simp only [truthyStr, hb1, hb2, hb3, Bool.and_self, Bool.true_and,
    Bool.and_true, Bool.true_eq_false, if_false, Option.getD_some, htp, hc,
    ht, hu, bne_self_eq_false, Bool.false_eq_true, hv, eq_self_iff_true,
    if_true]

def teacherC8 : Teacher := { teacherId := "t81", userId := "u81" }

def courseC8 : Course :=
  { courseId := "c81", title := "Physics", description := none,
    isPublic := false, teacherId := "t81", subjectId := none, image := "i" }

def topicC8 : Topic :=
  { topicId := "tp81", title := "Waves", courseId := "c81" }

def dbC8 : DB :=
  { users := [], teachers := [teacherC8], subjects := [],
    courses := [courseC8], topics := [topicC8], contents := [],
    enrollments := [], quizzes := [], exams := [] }

/-- Claim C8 witness: the owning teacher adding content of type AUDIO to an
existing topic is answered 400 and the store is unchanged. -/
theorem addContent_invalid_type_witness :
    addContentToTopicHandler dbC8 (some "tp81") (some "AUDIO")
      (some "payload") "u81" "k81" = (BAD_REQUEST, dbC8) :=
  addContent_invalid_type_400 dbC8 "tp81" "AUDIO" "payload" "u81" "k81"
    topicC8 courseC8 teacherC8 (by decide) (by decide) (by decide)
    rfl rfl rfl rfl (by decide)

/-- Claim C10: when the content exists and the caller owns the grandparent
course, the update-content handler accepts any supplied type value, including
values outside the TEXT, LINK, YOUTUBE_VIDEO enumeration, answers 200 and
persists that value: the enumeration check of add-content is not applied. -/
theorem updateContent_accepts_any_type (db : DB)
    (contentId userId ty : String) (da : Option String)
    (k : Content) (tp : Topic) (c : Course) (t : Teacher)
    (hk : db.findContent contentId = some k)
    (htp : db.findTopic k.topicId = some tp)
    (hc : db.findCourse tp.courseId = some c)
    (ht : db.courseOwner c = some t)
    (hu : t.userId = userId) :
    (updateContentHandler db contentId userId (some ty) da).1 = OK ∧
    ∃ k2, (updateContentHandler db contentId userId
             (some ty) da).2.findContent contentId = some k2 ∧
          k2.type = ty := by
  have hk' : db.contents.find? (fun x => x.contentId == contentId) = some k :=
    hk
  have hcid : k.contentId = contentId := by
    have hpc := List.find?_some hk'
    exact eq_of_beq (by simpa using hpc)
  have hsome : (db.findContent k.contentId).isSome = true := by
    rw [hcid, hk]; rfl
  unfold updateContentHandler
  rw [hk]
  simp only [htp, hc, ht, hu, bne_self_eq_false, Bool.false_eq_true,
    if_false]
  refine ⟨by trivial, ?_⟩
  rw [← hcid]
  exact ⟨_, findContent_replaceContent db _ hsome, rfl⟩

def teacherC10 : Teacher := { teacherId := "t01", userId := "u01" }

def courseC10 : Course :=
  { courseId := "c01", title := "Music", description := none,
    isPublic := false, teacherId := "t01", subjectId := none, image := "i" }

def topicC10 : Topic :=
  { topicId := "tp01", title := "Intro", courseId := "c01" }

def contentC10 : Content :=
  { contentId := "k01", type := "TEXT", data := "hello", topicId := "tp01" }

def dbC10 : DB :=
  { users := [], teachers := [teacherC10], subjects := [],
    courses := [courseC10], topics := [topicC10],
    contents := [contentC10], enrollments := [], quizzes := [],
    exams := [] }

/-- Claim C10 witness: the owning teacher updating an existing content
record to type AUDIO gets 200 and the stored type becomes AUDIO. -/
theorem updateContent_audio_witness :
    (updateContentHandler dbC10 "k01" "u01" (some "AUDIO") (some "d")).1
      = OK ∧
    ∃ k2, (updateContentHandler dbC10 "k01" "u01" (some "AUDIO")
             (some "d")).2.findContent "k01" = some k2 ∧
          k2.type = "AUDIO" :=
  updateContent_accepts_any_type dbC10 "k01" "u01" "AUDIO" (some "d")
    contentC10 topicC10 courseC10 teacherC10 rfl rfl rfl rfl rfl

/-! ## Detail projection of get-course-by-id -/

/-- Written from the spec words, for comparison with the projection the
handler builds: the spec describes the detail projection as joining in the
topics together with their contents, so each topic would carry its list of
content records. -/
def specDetailTopics (db : DB) (courseId : String) : List TopicProj :=
  db.topicsOfCourse courseId true

def teacherC2 : Teacher := { teacherId := "t21", userId := "u21" }

def courseC2 : Course :=
  { courseId := "c21", title := "History", description := none,
    isPublic := true, teacherId := "t21", subjectId := none, image := "i" }

def topicC2 : Topic :=
  { topicId := "tp21", title := "Antiquity", courseId := "c21" }

def contentC2 : Content :=
  { contentId := "k21", type := "TEXT", data := "rome", topicId := "tp21" }

def dbC2 : DB :=
  { users := [], teachers := [teacherC2], subjects := [],
    courses := [courseC2], topics := [topicC2], contents := [contentC2],
    enrollments := [], quizzes := [], exams := [] }

/-- Claim C2 counterexample: for an existing course holding one topic with
one content record, the detail projection carries the topic with no contents
joined (the include clause passes contents: false), so it differs from the
spec-worded projection that joins the contents in. -/
theorem getCourseById_omits_contents :
    ((getCourseByIdHandler dbC2 "c21").2.map fun d =>
        d.topics.map fun tp => tp.contents) = some [none] ∧
    ¬ ((getCourseByIdHandler dbC2 "c21").2.map fun d => d.topics)
        = some (specDetailTopics dbC2 "c21") := by
  constructor <;> decide

/-- Claim C2 (amended): for every existing course id the handler answers 200
with a detail projection holding the course, its topics with no contents
joined, the teacher names, and the enrollments, subject, quizzes and exams
of the course. -/
theorem getCourseById_detail (db : DB) (courseId : String) (c : Course)
    (h : db.findCourse courseId = some c) :
    (getCourseByIdHandler db courseId).1 = OK ∧
    ∃ d, (getCourseByIdHandler db courseId).2 = some d ∧
      d.course = c ∧
      d.topics.map TopicProj.topic
        = db.topics.filter (fun t => t.courseId == courseId) ∧
      (∀ tp ∈ d.topics, tp.contents = none) ∧
      d.teacher = db.teacherJoin c.teacherId ∧
      d.enrollments
        = db.enrollments.filter (fun e => e.courseId == courseId) ∧
      d.subject = c.subjectId.bind db.findSubject ∧
      d.quizzes = db.quizzes.filter (fun q => q.courseId == courseId) ∧
      d.exams = db.exams.filter (fun e => e.courseId == courseId) := by
  unfold getCourseByIdHandler
  rw [h]
  refine ⟨rfl, _, rfl, rfl, ?_, ?_, rfl, rfl, rfl, rfl, rfl⟩
  · unfold DB.topicsOfCourse
    rw [List.map_map]
    simp only [Bool.false_eq_true, if_false]
    have hcomp : (TopicProj.topic ∘ fun t : Topic =>
        ({ topic := t, contents := none } : TopicProj)) = fun t : Topic => t :=
      funext fun t => rfl
    rw [hcomp]
    simp
  · intro tp htp
    unfold DB.topicsOfCourse at htp
    obtain ⟨t, ht, rfl⟩ := List.mem_map.mp htp
    rfl

/-- Claim C2 witness: the amended detail projection evaluated on a concrete
store with one course, one topic and one content record. -/
theorem getCourseById_detail_witness :
    (getCourseByIdHandler dbC2 "c21").1 = OK ∧
    ∃ d, (getCourseByIdHandler dbC2 "c21").2 = some d ∧
      d.course = courseC2 ∧
      d.topics.map TopicProj.topic
        = dbC2.topics.filter (fun t => t.courseId == "c21") ∧
      (∀ tp ∈ d.topics, tp.contents = none) ∧
      d.teacher = dbC2.teacherJoin courseC2.teacherId ∧
      d.enrollments
        = dbC2.enrollments.filter (fun e => e.courseId == "c21") ∧
      d.subject = courseC2.subjectId.bind dbC2.findSubject ∧
      d.quizzes = dbC2.quizzes.filter (fun q => q.courseId == "c21") ∧
      d.exams = dbC2.exams.filter (fun e => e.courseId == "c21") :=
  getCourseById_detail dbC2 "c21" courseC2 rfl
